import Mathlib

/-!
Shallow embedding of the Template Assignment & Progression Engine of the
ce-be repository (a Flask backend for coach/client workout templates).

The repository ships its test suite (test_endpoints.py) and packaging
metadata; the backend package itself (route handlers and SQLAlchemy
models) is not part of the source tree given here.  The operations below
are therefore modelled from the specification (spec.md sections 3 to 7),
with every externally observable behaviour that the test suite pins down
(status codes, error messages, response shapes) taken from
test_endpoints.py.  Dates are modelled as day counts (Nat); adding days
is Nat addition.
-/

namespace CeBe

/-- Modelled from the spec: error taxonomy of section 7.  ValidationError
maps to 400, NotFoundError to 404, ConflictError to 409,
AuthorizationError to 401.  The backend module carrying these classes is
not under src/. -/
inductive ApiError where
  | validation (msg : String)
  | notFound (msg : String)
  | conflict (msg : String)
  | authorization (msg : String)
deriving Repr, DecidableEq

/-- Modelled from the spec: the HTTP status code each error kind maps to. -/
def statusCode : ApiError → Nat
  | .validation _ => 400
  | .notFound _ => 404
  | .conflict _ => 409
  | .authorization _ => 401

/-! Decimal rendering of naturals, used by the slug generator for the
numeric collision suffix. -/

/-- Decimal digit character for a single digit value. -/
def digitChar : Nat → Char
  | 0 => '0'
  | 1 => '1'
  | 2 => '2'
  | 3 => '3'
  | 4 => '4'
  | 5 => '5'
  | 6 => '6'
  | 7 => '7'
  | 8 => '8'
  | 9 => '9'
  | _ => '*'

/-- Numeric value of a decimal digit character. -/
def charVal (c : Char) : Nat := c.toNat - 48

/-- Decimal digit list with explicit fuel, so that the definition is
structurally recursive and evaluates inside the kernel. -/
def natDigitsGo : Nat → Nat → List Char
  | 0, _ => []
  | fuel + 1, n =>
    if n < 10 then [digitChar n]
    else natDigitsGo fuel (n / 10) ++ [digitChar (n % 10)]

/-- Decimal digit list of a natural number, most significant first. -/
def natDigits (n : Nat) : List Char := natDigitsGo (n + 1) n

/-- Decimal string of a natural number. -/
def natRepr (n : Nat) : String := ⟨natDigits n⟩

/-- Value of a digit list read in base ten. -/
def digitsVal (cs : List Char) : Nat := cs.foldl (fun a c => 10 * a + charVal c) 0

theorem charVal_digitChar (d : Nat) (hd : d < 10) : charVal (digitChar d) = d := by
  interval_cases d <;> decide

theorem digitsVal_append_singleton (xs : List Char) (c : Char) :
    digitsVal (xs ++ [c]) = 10 * digitsVal xs + charVal c := by
  simp [digitsVal, List.foldl_append]

theorem digitsVal_natDigitsGo (fuel : Nat) :
    ∀ n, n < fuel → digitsVal (natDigitsGo fuel n) = n := by
  induction fuel with
  | zero => intro n h; omega
  | succ fuel ih =>
    intro n h
    by_cases h10 : n < 10
    · rw [natDigitsGo, if_pos h10]
      simp [digitsVal, charVal_digitChar n h10]
    · have hdiv : n / 10 < n := Nat.div_lt_self (by omega) (by omega)
      rw [natDigitsGo, if_neg h10, digitsVal_append_singleton,
        ih (n / 10) (by omega),
        charVal_digitChar (n % 10) (Nat.mod_lt n (by omega))]
      omega

theorem digitsVal_natDigits (n : Nat) : digitsVal (natDigits n) = n :=
  digitsVal_natDigitsGo (n + 1) n (Nat.lt_succ_self n)

theorem natDigits_inj {a b : Nat} (h : natDigits a = natDigits b) : a = b := by
  have ha := digitsVal_natDigits a
  have hb := digitsVal_natDigits b
  rw [h] at ha
  omega

theorem natRepr_inj {a b : Nat} (h : natRepr a = natRepr b) : a = b := by
  apply natDigits_inj
  exact congrArg String.data h

theorem natDigits_ne_nil (n : Nat) : natDigits n ≠ [] := by
  rw [natDigits, natDigitsGo]
  by_cases h : n < 10 <;> simp [h]

theorem natRepr_length_pos (n : Nat) : 0 < (natRepr n).length := by
  have := natDigits_ne_nil n
  simp only [natRepr, String.length]
  exact List.length_pos.mpr this

/-! The Slug Generator (spec section 4.1). -/

/-- Collector for maximal alphanumeric runs of a character list; the
first argument is the reversed current run. -/
def slugTokensGo : List Char → List Char → List (List Char)
  | cur, [] => if cur.isEmpty then [] else [cur.reverse]
  | cur, c :: cs =>
    if c.isAlphanum then slugTokensGo (c :: cur) cs
    else if cur.isEmpty then slugTokensGo [] cs
    else cur.reverse :: slugTokensGo [] cs

/-- Modelled from the spec: normalization step of the Slug Generator
(section 4.1): lowercase, replace runs of non-alphanumeric characters by
single hyphens, trim leading and trailing hyphens.  The slugify helper
of the backend is not under src/. -/
def slugify (name : String) : String :=
  ⟨List.intercalate ['-'] (slugTokensGo [] (name.data.map Char.toLower))⟩

/-- Candidate slug with numeric suffix n. -/
def genCandidate (s : String) (n : Nat) : String := s ++ "-" ++ natRepr n

/-- Sequential scan for the smallest free numeric suffix, starting at n,
with explicit fuel.  Returns the first candidate not present in the
existing slug set. -/
def genFrom (s : String) (existing : List String) : Nat → Nat → String
  | _, 0 => s
  | n, fuel + 1 =>
    let c := genCandidate s n
    if c ∈ existing then genFrom s existing (n + 1) fuel else c

/-- Modelled from the spec: the Slug Generator contract of section 4.1.
Given a base name and the set of slugs already taken in the owner scope,
return the normalized slug, or, on collision, the candidate with the
smallest numeric suffix not taken, scanned sequentially from 1.  The
generator itself is not under src/; the suffix behaviour is pinned by
test_post_client_template (slugs test-coach-template-2-test-client and
test-coach-template-2-test-client-1). -/
def generate (base : String) (existing : List String) : String :=
  let s := slugify base
  if s ∈ existing then genFrom s existing 1 (existing.length + 1) else s

/-- Repeated generation: starting from a scope, generate n slugs for the
same base name, each generated slug joining the scope before the next
generation (as persisting each created entity does). -/
def slugSeq (base : String) (scope : List String) : Nat → List String
  | 0 => []
  | n + 1 =>
    let prev := slugSeq base scope n
    prev ++ [generate base (scope ++ prev)]

/-- Expected k-th slug for a repeated base name in a fresh scope. -/
def expectedSlug (base : String) (k : Nat) : String :=
  if k = 0 then slugify base else genCandidate (slugify base) k

theorem length_genCandidate (s : String) (n : Nat) :
    (genCandidate s n).length = s.length + 1 + (natRepr n).length := by
  simp [genCandidate, String.length_append]
  decide

theorem slugify_ne_genCandidate (s : String) (n : Nat) :
    s ≠ genCandidate s n := by
  intro h
  have hl := congrArg String.length h
  rw [length_genCandidate] at hl
  have := natRepr_length_pos n
  omega

theorem genCandidate_inj {s : String} {i j : Nat}
    (h : genCandidate s i = genCandidate s j) : i = j := by
  have hd := congrArg String.data h
  simp only [genCandidate, String.data_append] at hd
  have h2 := List.append_cancel_left hd
  exact natRepr_inj (by exact congrArg String.mk h2)

theorem expectedSlug_inj {base : String} {i j : Nat}
    (h : expectedSlug base i = expectedSlug base j) : i = j := by
  unfold expectedSlug at h
  by_cases hi : i = 0 <;> by_cases hj : j = 0 <;> simp [hi, hj] at h ⊢
  · exact absurd h (slugify_ne_genCandidate _ _)
  · exact absurd h.symm (slugify_ne_genCandidate _ _)
  · exact genCandidate_inj h

theorem genFrom_eq {s : String} {existing : List String} :
    ∀ (fuel n m : Nat), n ≤ m → m - n < fuel →
    (∀ j, n ≤ j → j < m → genCandidate s j ∈ existing) →
    genCandidate s m ∉ existing →
    genFrom s existing n fuel = genCandidate s m := by
  intro fuel
  induction fuel with
  | zero => intro n m _ hlt _ _; omega
  | succ fuel ih =>
    intro n m hnm hlt hmem hfree
    by_cases hEq : n = m
    · subst hEq
      simp [genFrom, hfree]
    · have hn : n < m := by omega
      have hin : genCandidate s n ∈ existing := hmem n le_rfl hn
      simp only [genFrom, hin, if_pos]
      exact ih (n + 1) m (by omega) (by omega)
        (fun j h1 h2 => hmem j (by omega) h2) hfree

theorem generate_expected (base : String) (scope : List String)
    (h0 : slugify base ∉ scope)
    (h1 : ∀ k, genCandidate (slugify base) k ∉ scope) (n : Nat) :
    generate base (scope ++ (List.range n).map (expectedSlug base)) =
      expectedSlug base n := by
  set s := slugify base with hs
  set existing := scope ++ (List.range n).map (expectedSlug base) with hex
  match n with
  | 0 =>
    have : s ∉ existing := by
      rw [hex]
      simp [h0]
    simp [generate, ← hs, this, expectedSlug]
  | Nat.succ k =>
    have hmem0 : s ∈ existing := by
      rw [hex]
      apply List.mem_append_right
      refine List.mem_map.mpr ⟨0, ?_, ?_⟩
      · exact List.mem_range.mpr (Nat.succ_pos k)
      · simp [expectedSlug, hs]
    have hlen : existing.length = scope.length + (k + 1) := by
      rw [hex]
      simp
    have hcov : ∀ j, 1 ≤ j → j < k + 1 → genCandidate s j ∈ existing := by
      intro j hj1 hj2
      rw [hex]
      apply List.mem_append_right
      refine List.mem_map.mpr ⟨j, List.mem_range.mpr hj2, ?_⟩
      have hj0 : j ≠ 0 := by omega
      simp [expectedSlug, hj0, hs]
    have hfree : genCandidate s (k + 1) ∉ existing := by
      rw [hex]
      intro hmem
      rcases List.mem_append.mp hmem with hA | hB
      · exact h1 (k + 1) hA
      · rcases List.mem_map.mp hB with ⟨i, hi, hei⟩
        have : expectedSlug base i = expectedSlug base (k + 1) := by
          rw [hei]
          simp [expectedSlug, hs]
        have := expectedSlug_inj this
        rw [this] at hi
        exact absurd (List.mem_range.mp hi) (by omega)
    have hgen : generate base existing = genFrom s existing 1 (existing.length + 1) := by
      simp [generate, ← hs, hmem0]
    rw [hgen, genFrom_eq (existing.length + 1) 1 (k + 1) (by omega)
      (by omega) hcov hfree]
    simp [expectedSlug, hs]

theorem slugSeq_eq_expected (base : String) (scope : List String)
    (h0 : slugify base ∉ scope)
    (h1 : ∀ k, genCandidate (slugify base) k ∉ scope) (n : Nat) :
    slugSeq base scope n = (List.range n).map (expectedSlug base) := by
  induction n with
  | zero => simp [slugSeq]
  | succ k ih =>
    rw [slugSeq, ih, generate_expected base scope h0 h1 k, List.range_succ]
    simp

/-! Data model (spec section 3).  Dates are day counts. -/

/-- Modelled from the spec: ClientExercise row (section 3), a per-client
override of a coach-side slot.  The SQLAlchemy model is not under src/. -/
structure ClientExercise where
  id : Nat
  name : String
  category : String
  sets : Nat
  reps : Nat
  weight : Nat
  order : Nat
deriving Repr, DecidableEq

/-- Modelled from the spec: TrainingEntry row (section 3), a free-form
logged exercise attached to a ClientSession. -/
structure TrainingEntry where
  id : Nat
  name : String
  category : String
  sets : Nat
  reps : Nat
  weight : Nat
  order : Nat
deriving Repr, DecidableEq

/-- Modelled from the spec: ClientSession row (section 3). -/
structure ClientSession where
  id : Nat
  name : String
  slug : String
  order : Nat
  completed : Bool
  completed_date : Option Nat
  exercises : List ClientExercise
  training_entries : List TrainingEntry
deriving Repr, DecidableEq

/-- Modelled from the spec: ClientTemplate row (section 3). -/
structure ClientTemplate where
  id : Nat
  user_id : Nat
  coach_template_id : Option Nat
  name : String
  slug : String
  active : Bool
  completed : Bool
  start_date : Nat
  sessions : List ClientSession
deriving Repr, DecidableEq

/-- Modelled from the spec: CheckIn row (section 3), tied 1:1 to a
ClientTemplate. -/
structure CheckIn where
  id : Nat
  client_template_id : Nat
  start_date : Nat
  end_date : Nat
  completed : Bool
  coach_comment : Option String
  client_comment : Option String
deriving Repr, DecidableEq

/-- Modelled from the spec: catalog Exercise row (flat id, category,
name records, section 6). -/
structure Exercise where
  id : Nat
  category : String
  name : String
deriving Repr, DecidableEq

/-- Modelled from the spec: CoachExercise row (the ExerciseSlot of
section 3): a reference to a catalog Exercise plus an order. -/
structure CoachExercise where
  id : Nat
  exercise_id : Nat
  order : Nat
deriving Repr, DecidableEq

/-- Modelled from the spec: CoachSession row (section 3). -/
structure CoachSession where
  id : Nat
  name : String
  slug : String
  order : Nat
  coach_exercises : List CoachExercise
deriving Repr, DecidableEq

/-- Modelled from the spec: CoachTemplate row (section 3). -/
structure CoachTemplate where
  id : Nat
  name : String
  slug : String
  sessions : List CoachSession
deriving Repr, DecidableEq

/-- Modelled from the spec: the user record fields the engine needs
(id, names for the slug base, role string). -/
structure User where
  id : Nat
  first_name : String
  last_name : String
  role : String
deriving Repr, DecidableEq

/-! Read-side helpers shared by the Progression Tracker operations. -/

/-- Active ClientTemplates of one client: the read-time scan for
active=true rows of that user (spec section 9, derived property). -/
def activeOf (db : List ClientTemplate) (uid : Nat) : List ClientTemplate :=
  db.filter (fun t => t.user_id == uid && t.active)

/-- Ordering of client sessions by their order column. -/
def sessionLE (a b : ClientSession) : Prop := a.order ≤ b.order

instance : DecidableRel sessionLE := fun a b => Nat.decLe a.order b.order

instance : IsTotal ClientSession sessionLE :=
  ⟨fun a b => Nat.le_total a.order b.order⟩

instance : IsTrans ClientSession sessionLE :=
  ⟨fun _ _ _ h1 h2 => Nat.le_trans h1 h2⟩

/-- Sort sessions ascending by order (the order-by of the store). -/
def sortByOrder (l : List ClientSession) : List ClientSession :=
  List.insertionSort sessionLE l

/-- Modelled from the spec: GET /client/template/active (spec sections
4.3 and 8.5).  Missing user_id is a validation error; more than one
active template for the client is a surfaced ConflictError; exactly one
is returned; none is a not-found error.  Status codes and error strings
are pinned by test_get_active_client_template. -/
def getActiveClientTemplate (userId : Option Nat) (db : List ClientTemplate) :
    Except ApiError ClientTemplate :=
  match userId with
  | none => .error (.validation "No query parameter user_id found in request")
  | some uid =>
    match activeOf db uid with
    | [] => .error (.notFound ("No active template found with client_id: " ++ natRepr uid))
    | [t] => .ok t
    | _ :: _ :: _ => .error (.conflict "More than 1 active template found for client")

/-- Modelled from the spec: GET /client/session/next (spec section 4.4,
next pending session).  Resolves the single active template of the
client, then returns the lowest-order session with completed=false;
returns none when every session is completed.  Status codes and error
strings are pinned by test_get_client_next_session. -/
def getNextSession (clientId : Option Nat) (db : List ClientTemplate) :
    Except ApiError (Option ClientSession) :=
  match clientId with
  | none => .error (.validation "No query parameter client_id found in request")
  | some cid =>
    match activeOf db cid with
    | [] => .error (.notFound ("No active template found with client_id: " ++ natRepr cid))
    | [t] => .ok (sortByOrder (t.sessions.filter (fun s => !s.completed))).head?
    | _ :: _ :: _ => .error (.conflict "More than 1 active template found for client")

/-- Modelled from the spec: GET /client/trainingLog (spec section 4.4,
paginated history).  Resolves the single active template, takes its
completed sessions ascending by order, and windows them by the 1-based
page and the page size; both omitted returns all completed sessions.
The missing client_id error string is pinned by
test_get_client_training_logs. -/
def trainingLog (clientId : Option Nat) (page pageSize : Option Nat)
    (db : List ClientTemplate) : Except ApiError (List ClientSession) :=
  match clientId with
  | none => .error (.validation "No query parameter client_id found in query parameter")
  | some cid =>
    match activeOf db cid with
    | [] => .error (.notFound ("No active template found with client_id: " ++ natRepr cid))
    | [t] =>
      let hist := sortByOrder (t.sessions.filter (fun s => s.completed))
      match page, pageSize with
      | some p, some s => .ok ((hist.drop ((p - 1) * s)).take s)
      | _, _ => .ok hist
    | _ :: _ :: _ => .error (.conflict "More than 1 active template found for client")

/-! Write-side operations. -/

/-- Exercise entry of a session create or update payload. -/
structure ExercisePayload where
  name : String
  category : String
  sets : Nat
  reps : Nat
  weight : Nat
  order : Nat
deriving Repr, DecidableEq

/-- Store an exercise payload as a ClientExercise row (new rows get a
fresh id from the store, modelled as 0 here). -/
def toClientExercise (p : ExercisePayload) : ClientExercise :=
  { id := 0, name := p.name, category := p.category, sets := p.sets,
    reps := p.reps, weight := p.weight, order := p.order }

/-- Store an exercise payload as a TrainingEntry row. -/
def toTrainingEntry (p : ExercisePayload) : TrainingEntry :=
  { id := 0, name := p.name, category := p.category, sets := p.sets,
    reps := p.reps, weight := p.weight, order := p.order }

/-- Partial session update payload of PUT /client/session and of the
session payloads of a check-in submission. -/
structure SessionUpdate where
  id : Option Nat
  name : Option String
  completed : Option Bool
  exercises : Option (List ExercisePayload)
deriving Repr, DecidableEq

/-- Modelled from the spec: the session-completion semantics of section
4.4 shared by the direct update path and the check-in submission path.
Supplied fields mutate, omitted fields are untouched; a supplied
exercise list replaces the ClientExercise list wholesale; completed=true
sets the completion flag and stamps completed_date as the owning
template start date plus the session order, with no reference to the
current date. -/
def applyUpdate (t : ClientTemplate) (s : ClientSession) (p : SessionUpdate) :
    ClientSession :=
  let s1 := { s with
    name := p.name.getD s.name,
    exercises := match p.exercises with
      | none => s.exercises
      | some es => es.map toClientExercise }
  match p.completed with
  | some true =>
    { s1 with completed := true, completed_date := some (t.start_date + s.order) }
  | _ => s1

/-- First template of the store owning a session with the given id,
together with that session. -/
def findSession : List ClientTemplate → Nat → Option (ClientTemplate × ClientSession)
  | [], _ => none
  | t :: ts, sid =>
    match t.sessions.find? (fun s => s.id == sid) with
    | some s => some (t, s)
    | none => findSession ts sid

/-- Replace the session with the given id by the supplied row, in every
template holding it. -/
def updateSessionInDb (db : List ClientTemplate) (sid : Nat)
    (s2 : ClientSession) : List ClientTemplate :=
  db.map (fun t =>
    { t with sessions := t.sessions.map (fun s => if s.id == sid then s2 else s) })

/-- Modelled from the spec: PUT /client/session (spec sections 4.4 and
6).  The today argument is the request wall-clock date; per the spec the
completion date derives only from the owning template start date and the
session order.  Error strings are pinned by test_put_client_session. -/
def putClientSession (p : SessionUpdate) (today : Nat)
    (db : List ClientTemplate) :
    Except ApiError (ClientSession × List ClientTemplate) :=
  match p.id with
  | none => .error (.validation "No id parameter found in request body")
  | some sid =>
    match findSession db sid with
    | none => .error (.notFound "No client session found with supplied id")
    | some (t, s) =>
      let s2 := applyUpdate t s p
      .ok (s2, updateSessionInDb db sid s2)

/-- Check-in fields of a PUT /submitCheckin payload. -/
structure CheckInUpdate where
  id : Nat
  client_template_id : Nat
  coach_comment : Option String
  client_comment : Option String
  completed : Bool
deriving Repr, DecidableEq

/-- Apply the shared session-completion semantics to each session
payload of a check-in submission, sequentially over the store. -/
def applySessionUpdates : List SessionUpdate → List ClientTemplate →
    Except ApiError (List ClientSession × List ClientTemplate)
  | [], db => .ok ([], db)
  | p :: ps, db =>
    match p.id with
    | none => .error (.validation "No id parameter found in request body")
    | some sid =>
      match findSession db sid with
      | none => .error (.notFound "No client session found with supplied id")
      | some (t, s) =>
        match applySessionUpdates ps (updateSessionInDb db sid (applyUpdate t s p)) with
        | .error e => .error e
        | .ok (ss, db2) => .ok (applyUpdate t s p :: ss, db2)

/-- Update the completion flag and comment fields of a check-in row from
a submission payload; a comment field left out keeps its stored value. -/
def updCheckIn (cp : CheckInUpdate) (ci : CheckIn) : CheckIn :=
  { ci with
    completed := cp.completed,
    coach_comment := (match cp.coach_comment with
      | some v => some v
      | none => ci.coach_comment),
    client_comment := (match cp.client_comment with
      | some v => some v
      | none => ci.client_comment) }

/-- Modelled from the spec: PUT /submitCheckin (spec section 4.5).
Updates the check-in completion flag and comment fields and, in the same
transaction, applies the section 4.4 session-completion semantics to any
session payloads supplied alongside.  Response shape is pinned by
test_submit_checkin. -/
def submitCheckin (cp : CheckInUpdate) (sps : List SessionUpdate)
    (today : Nat) (db : List ClientTemplate) (cis : List CheckIn) :
    Except ApiError (CheckIn × List ClientSession × List ClientTemplate × List CheckIn) :=
  match cis.find? (fun c => c.id == cp.id) with
  | none => .error (.notFound "No checkin found with the supplied parameter")
  | some ci =>
    match applySessionUpdates sps db with
    | .error e => .error e
    | .ok (ss, db2) =>
      .ok (updCheckIn cp ci, ss, db2,
        cis.map (fun c => if c.id == cp.id then updCheckIn cp ci else c))

/-! The Assignment Engine (spec section 4.3) and the Check-In Scheduler
derivation it invokes (spec section 4.5). -/

/-- Per-slot override entry of an assignment request: a source exercise
id with the client-specific sets, reps and weight. -/
structure ExerciseOverride where
  id : Nat
  sets : Nat
  reps : Nat
  weight : Nat
deriving Repr, DecidableEq

/-- Per-session entry of an assignment request: a source session id and
the overrides for its exercises. -/
structure SessionInput where
  id : Nat
  exercises : List ExerciseOverride
deriving Repr, DecidableEq

/-- Body of POST /client/template. -/
structure AssignRequest where
  role : Option String
  template_id : Option Nat
  client_id : Option Nat
  sessions : Option (List SessionInput)
deriving Repr, DecidableEq

/-- Catalog lookup by exercise id, defaulting to an empty record when
absent. -/
def catalogLookup (catalog : List Exercise) (eid : Nat) : Exercise :=
  (catalog.find? (fun e => e.id == eid)).getD { id := eid, category := "", name := "" }

/-- Copy one coach exercise slot into a ClientExercise, applying the
override; none when the referenced slot is not in the source session. -/
def copyCoachExercise (catalog : List Exercise) (cs : CoachSession)
    (o : ExerciseOverride) : Option ClientExercise :=
  (cs.coach_exercises.find? (fun e => e.id == o.id)).map (fun e =>
    let ex := catalogLookup catalog e.exercise_id
    { id := 0, name := ex.name, category := ex.category, sets := o.sets,
      reps := o.reps, weight := o.weight, order := e.order })

/-- Copy one coach session referenced by a request entry; none when the
referenced session is not in the source template. -/
def copyCoachSession (catalog : List Exercise) (ct : CoachTemplate)
    (si : SessionInput) : Option ClientSession :=
  (ct.sessions.find? (fun s => s.id == si.id)).map (fun s =>
    { id := 0, name := s.name, slug := s.slug, order := s.order,
      completed := false, completed_date := none,
      exercises := si.exercises.filterMap (copyCoachExercise catalog s),
      training_entries := [] })

/-- Copy one client exercise referenced by a request entry, applying the
override. -/
def copyClientExercise (s : ClientSession) (o : ExerciseOverride) :
    Option ClientExercise :=
  (s.exercises.find? (fun e => e.id == o.id)).map (fun e =>
    { e with sets := o.sets, reps := o.reps, weight := o.weight })

/-- Copy one client session referenced by a request entry of a
re-assignment. -/
def copyClientSession (src : ClientTemplate) (si : SessionInput) :
    Option ClientSession :=
  (src.sessions.find? (fun s => s.id == si.id)).map (fun s =>
    { s with
      completed := false, completed_date := none,
      exercises := si.exercises.filterMap (copyClientExercise s),
      training_entries := [] })

/-- Display name of the target client, used in the slug base. -/
def clientName (users : List User) (cid : Nat) : String :=
  match users.find? (fun u => u.id == cid) with
  | some u => u.first_name ++ " " ++ u.last_name
  | none => ""

/-- Modelled from the spec: the CheckIn the Check-In Scheduler creates
at assignment time (spec section 4.5): window from today to today plus
the session count, completed=false, no comments. -/
def newCheckIn (newId today count : Nat) : CheckIn :=
  { id := newId, client_template_id := newId, start_date := today,
    end_date := today + count, completed := false,
    coach_comment := none, client_comment := none }

/-- Materialize the assigned ClientTemplate and its single CheckIn: slug
scoped to the target client from the source name and the client name,
active=true, completed=false, start date today; the CheckIn window runs
from today to today plus the number of copied sessions (spec sections
4.3 and 4.5). -/
def buildAssigned (srcName : String) (origin : Option Nat)
    (copied : List ClientSession) (cid : Nat) (today : Nat)
    (users : List User) (clientDb : List ClientTemplate)
    (checkIns : List CheckIn) (newId : Nat) : ClientTemplate × List CheckIn :=
  let base := srcName ++ " " ++ clientName users cid
  let slug := generate base
    ((clientDb.filter (fun t => t.user_id == cid)).map (fun t => t.slug))
  let t : ClientTemplate :=
    { id := newId, user_id := cid, coach_template_id := origin,
      name := srcName, slug := slug, active := true, completed := false,
      start_date := today, sessions := copied }
  (t, checkIns ++ [newCheckIn newId today copied.length])

/-- Modelled from the spec: POST /client/template, the Assignment
Engine (spec section 4.3).  Field presence, the empty session list, and
the role enum are validated in the order pinned by
test_post_client_template; role COACH copies from a coach template,
role CLIENT re-assigns from an existing client template, and the copied
sessions are exactly the ones listed in the request (pinned by the
re-assignment step of test_post_client_template, which supplies one of
two source sessions and receives a one-session template).  The result
pairs the materialized ClientTemplate with the updated CheckIn table. -/
def assignTemplate (req : AssignRequest) (today : Nat) (users : List User)
    (catalog : List Exercise) (coachDb : List CoachTemplate)
    (clientDb : List ClientTemplate) (checkIns : List CheckIn)
    (newId : Nat) : Except ApiError (ClientTemplate × List CheckIn) :=
  match req.role, req.template_id, req.client_id, req.sessions with
  | some role, some tid, some cid, some sessions =>
    if sessions.isEmpty then
      .error (.validation "Length of sessions supplied is 0")
    else if role == "COACH" then
      match coachDb.find? (fun t => t.id == tid) with
      | none => .error (.notFound ("No coach template found with coach_template_id: " ++ natRepr tid))
      | some ct =>
        .ok (buildAssigned ct.name (some ct.id)
          (sessions.filterMap (copyCoachSession catalog ct)) cid today users
          clientDb checkIns newId)
    else if role == "CLIENT" then
      match clientDb.find? (fun t => t.id == tid) with
      | none => .error (.notFound ("No client template found with id: " ++ natRepr tid))
      | some src =>
        .ok (buildAssigned src.name src.coach_template_id
          (sessions.filterMap (copyClientSession src)) cid today users
          clientDb checkIns newId)
    else
      .error (.validation "Parameter role should be either COACH or CLIENT")
  | _, _, _, _ =>
    .error (.validation "Need to specify a valid template_id (int), client_id (int), sessions (array), and role (enum)")

/-! Session creation (POST /client/session). -/

/-- Materialize the ClientSession a create request produces: a COACH
caller has the exercise payload stored as ClientExercises with no
training entries, a CLIENT caller has it stored as TrainingEntries with
no client exercises (pinned by test_post_client_session). -/
def createdSession (role : String) (nm : String) (exs : List ExercisePayload)
    (t : ClientTemplate) (newId : Nat) : ClientSession :=
  { id := newId, name := nm,
    slug := generate nm (t.sessions.map (fun s => s.slug)),
    order := t.sessions.length + 1, completed := false, completed_date := none,
    exercises := if role == "COACH" then exs.map toClientExercise else [],
    training_entries := if role == "COACH" then [] else exs.map toTrainingEntry }

/-- Modelled from the spec: POST /client/session (spec sections 4.2 and
6, duplicate session name rejection of section 8.8).  The role argument
is the role of the logged-in caller.  Error strings and status codes are
pinned by test_post_client_session. -/
def postClientSession (role : String) (templateId : Option Nat)
    (nm : Option String) (exercises : Option (List ExercisePayload))
    (db : List ClientTemplate) (newId : Nat) :
    Except ApiError (ClientSession × List ClientTemplate) :=
  match templateId, nm, exercises with
  | some tid, some n, some exs =>
    match db.find? (fun t => t.id == tid) with
    | none => .error (.notFound ("No client template found with template id: " ++ natRepr tid))
    | some t =>
      if t.sessions.any (fun s => s.name == n) then
        .error (.conflict ("Duplicate session name found in template: " ++ n))
      else
        let sess := createdSession role n exs t newId
        .ok (sess, db.map (fun u =>
          if u.id == tid then { u with sessions := u.sessions ++ [sess] } else u))
  | _, _, _ =>
    .error (.validation "Must specify client_template_id (int) name (string) and exercises (array)")

/-- Store state after a session create request: the updated table on
success, the untouched table on any error (the enclosing transaction
aborts, spec section 7). -/
def runPostClientSession (role : String) (templateId : Option Nat)
    (nm : Option String) (exercises : Option (List ExercisePayload))
    (db : List ClientTemplate) (newId : Nat) : List ClientTemplate :=
  match postClientSession role templateId nm exercises db newId with
  | .ok (_, db2) => db2
  | .error _ => db

/-! General helper lemmas. -/

theorem length_filterMap_of_isSome {α β : Type} (f : α → Option β) :
    ∀ l : List α, (∀ x ∈ l, (f x).isSome) → (l.filterMap f).length = l.length := by
  intro l
  induction l with
  | nil => simp
  | cons a l ih =>
    intro h
    have ha := h a (List.mem_cons_self a l)
    rcases hfa : f a with _ | b
    · rw [hfa] at ha
      simp at ha
    · simp [List.filterMap_cons, hfa,
        ih (fun x hx => h x (List.mem_cons_of_mem a hx))]

/-! Sample rows used by the concrete witness and counterexample
theorems below. -/

/-- Sample session row. -/
def mkSession (i o : Nat) (c : Bool) : ClientSession :=
  { id := i, name := "S" ++ natRepr i, slug := "s-" ++ natRepr i,
    order := o, completed := c, completed_date := none,
    exercises := [], training_entries := [] }

/-- Sample client template row. -/
def mkTemplate (i uid : Nat) (act : Bool) (ss : List ClientSession) :
    ClientTemplate :=
  { id := i, user_id := uid, coach_template_id := none,
    name := "Test Client Template", slug := "test-client-template",
    active := act, completed := false, start_date := 100, sessions := ss }

/-- Sample user table: one client. -/
def demoUsers : List User :=
  [{ id := 7, first_name := "test", last_name := "client", role := "CLIENT" }]

/-- Sample source client template with two sessions of one exercise
each, mirroring the fixture of test_endpoints.py. -/
def srcClientTemplate : ClientTemplate :=
  { id := 3, user_id := 7, coach_template_id := some 1,
    name := "Test Coach Template 2",
    slug := "test-coach-template-2-test-client", active := true,
    completed := false, start_date := 100,
    sessions := [
      { id := 11, name := "Test Session 1", slug := "test-session-1",
        order := 1, completed := false, completed_date := none,
        exercises := [{ id := 21, name := "Deadlifts",
                        category := "Lower Back", sets := 5, reps := 5,
                        weight := 315, order := 1 }],
        training_entries := [] },
      { id := 12, name := "Test Session 2", slug := "test-session-2",
        order := 2, completed := false, completed_date := none,
        exercises := [{ id := 22, name := "Pullups",
                        category := "Latisimus Dorsi", sets := 5, reps := 5,
                        weight := 315, order := 1 }],
        training_entries := [] }] }

/-- Session list of the sample partial re-assignment request: it covers
only the first of the two source sessions. -/
def reqSubsetSessions : List SessionInput :=
  [{ id := 11,
     exercises := [{ id := 21, sets := 4, reps := 10, weight := 150 }] }]

/-- Sample re-assignment request covering only the first of the two
source sessions, as in the re-assignment step of
test_post_client_template. -/
def reqSubset : AssignRequest :=
  { role := some "CLIENT", template_id := some 3, client_id := some 7,
    sessions := some reqSubsetSessions }

/-- Sample request with a role outside the enum. -/
def reqBadRole : AssignRequest := { reqSubset with role := some "User" }

/-- Sample coach template with two sessions of two exercise slots each,
mirroring generate_coach_template_model of test_endpoints.py. -/
def demoCoachTemplate : CoachTemplate :=
  { id := 1, name := "Test Coach Template", slug := "test-coach-template",
    sessions := [
      { id := 31, name := "Test Session 1", slug := "test-session-1",
        order := 1,
        coach_exercises := [{ id := 41, exercise_id := 1, order := 1 },
                            { id := 42, exercise_id := 2, order := 2 }] },
      { id := 32, name := "Test Session 2", slug := "test-session-2",
        order := 2,
        coach_exercises := [{ id := 43, exercise_id := 1, order := 1 },
                            { id := 44, exercise_id := 2, order := 2 }] }] }

/-- Sample exercise catalog. -/
def demoCatalog : List Exercise :=
  [{ id := 1, category := "Lower Back", name := "Deadlifts" },
   { id := 2, category := "Latisimus Dorsi", name := "Pullups" }]

/-- Session list of the sample full assignment request: every source
session with every slot overridden. -/
def reqFullSessions : List SessionInput :=
  [{ id := 31, exercises := [{ id := 41, sets := 5, reps := 5, weight := 315 },
                             { id := 42, sets := 5, reps := 5, weight := 315 }] },
   { id := 32, exercises := [{ id := 43, sets := 5, reps := 5, weight := 315 },
                             { id := 44, sets := 5, reps := 5, weight := 315 }] }]

/-- Sample full assignment request from the coach template. -/
def reqFull : AssignRequest :=
  { role := some "COACH", template_id := some 1, client_id := some 7,
    sessions := some reqFullSessions }

/-- Result pair of the sample full assignment. -/
def demoAssigned : ClientTemplate × List CheckIn :=
  buildAssigned demoCoachTemplate.name (some demoCoachTemplate.id)
    (reqFullSessions.filterMap (copyCoachSession demoCatalog demoCoachTemplate))
    7 200 demoUsers [] [] 50

/-- Sample session update payload marking session 11 completed, as in
test_put_client_session. -/
def p0 : SessionUpdate :=
  { id := some 11, name := some "Client session name change",
    completed := some true,
    exercises := some [{ name := "Deadlifts", category := "Lower Back",
                         sets := 1, reps := 1, weight := 100, order := 1 }] }

/-- Sample stored session of order 2, not yet completed. -/
def s0 : ClientSession := mkSession 11 2 false

/-- Sample template owning s0, start date 100. -/
def t0 : ClientTemplate := mkTemplate 1 7 true [s0]

/-- Sample check-in submission payload. -/
def cp0 : CheckInUpdate :=
  { id := 5, client_template_id := 1,
    coach_comment := some "Template completed", client_comment := none,
    completed := false }

/-- Sample stored check-in row. -/
def ci0 : CheckIn := newCheckIn 5 100 2

/-! Claim theorems. -/

/-- C1: for every client holding two (or more) active ClientTemplates,
the get active template read returns the ConflictError (HTTP 409)
rather than an arbitrary pick; once exactly one template is active, the
same read returns that template. -/
theorem c1_active_template_read (db : List ClientTemplate) (uid : Nat) :
    (2 ≤ (activeOf db uid).length →
      getActiveClientTemplate (some uid) db =
        .error (.conflict "More than 1 active template found for client"))
    ∧ statusCode (.conflict "More than 1 active template found for client") = 409
    ∧ (∀ t, activeOf db uid = [t] →
        getActiveClientTemplate (some uid) db = .ok t) := by
  refine ⟨?_, rfl, ?_⟩
  · intro h2
    rcases hl : activeOf db uid with _ | ⟨a, _ | ⟨b, l⟩⟩
    · rw [hl] at h2
      simp at h2
    · rw [hl] at h2
      simp at h2
    · simp [getActiveClientTemplate, hl]
  · intro t ht
    simp [getActiveClientTemplate, ht]

/-- Witness for C1 at concrete stores: two active templates for client 7
give the 409 conflict, a single active one is returned. -/
theorem c1_witness :
    getActiveClientTemplate (some 7)
        [mkTemplate 1 7 true [], mkTemplate 2 7 true []] =
      .error (.conflict "More than 1 active template found for client")
    ∧ getActiveClientTemplate (some 7)
        [mkTemplate 1 7 true [], mkTemplate 2 7 false []] =
      .ok (mkTemplate 1 7 true []) :=
  ⟨(c1_active_template_read [mkTemplate 1 7 true [], mkTemplate 2 7 true []] 7).1
      (by decide),
   (c1_active_template_read [mkTemplate 1 7 true [], mkTemplate 2 7 false []] 7).2.2
      (mkTemplate 1 7 true []) (by decide)⟩

/-- C4: starting from an owner scope holding no slug derived from the
base name, a sequence of N generated slugs for the same base name is
pairwise distinct, the first one is the normalized base and the k-th
collision receives the numeric suffix k. -/
theorem c4_slug_uniqueness (base : String) (scope : List String) (N : Nat)
    (h0 : slugify base ∉ scope)
    (h1 : ∀ k, genCandidate (slugify base) k ∉ scope) :
    slugSeq base scope N = (List.range N).map (expectedSlug base)
    ∧ (slugSeq base scope N).Nodup := by
  have heq := slugSeq_eq_expected base scope h0 h1 N
  refine ⟨heq, ?_⟩
  rw [heq]
  exact (List.nodup_range N).map_on
    (fun x _ y _ h => expectedSlug_inj h)

/-- Witness for C4: three assignments of the template named as in
test_post_client_template to the same client give the base slug, then
suffix 1, then suffix 2, pairwise distinct. -/
theorem c4_witness :
    slugSeq "Test Coach Template 2 test client" [] 3 =
      (List.range 3).map (expectedSlug "Test Coach Template 2 test client")
    ∧ (slugSeq "Test Coach Template 2 test client" [] 3).Nodup :=
  c4_slug_uniqueness "Test Coach Template 2 test client" [] 3
    (by simp) (fun k => by simp)

/-- C2: completing the session of order O on a template whose start date
is D, either through the direct session update or through a check-in
submission carrying the session payload, stamps completed_date as
exactly D plus O days, and both operations are independent of the
wall-clock date of the request. -/
theorem c2_completed_date (db : List ClientTemplate) (p : SessionUpdate)
    (sid : Nat) (t : ClientTemplate) (s : ClientSession)
    (today today2 : Nat) (cp : CheckInUpdate) (cis : List CheckIn)
    (ci : CheckIn)
    (hid : p.id = some sid)
    (hfind : findSession db sid = some (t, s))
    (hc : p.completed = some true)
    (hci : cis.find? (fun c => c.id == cp.id) = some ci) :
    putClientSession p today db =
      .ok (applyUpdate t s p, updateSessionInDb db sid (applyUpdate t s p))
    ∧ (applyUpdate t s p).completed = true
    ∧ (applyUpdate t s p).completed_date = some (t.start_date + s.order)
    ∧ putClientSession p today db = putClientSession p today2 db
    ∧ submitCheckin cp [p] today db cis =
        .ok (updCheckIn cp ci, [applyUpdate t s p],
             updateSessionInDb db sid (applyUpdate t s p),
             cis.map (fun c => if c.id == cp.id then updCheckIn cp ci else c))
    ∧ submitCheckin cp [p] today db cis =
        submitCheckin cp [p] today2 db cis := by
  refine ⟨?_, ?_, ?_, rfl, ?_, rfl⟩
  · simp [putClientSession, hid, hfind]
  · simp [applyUpdate, hc]
  · simp [applyUpdate, hc]
  · simp [submitCheckin, hci, applySessionUpdates, hid, hfind]

/-- Witness for C2: session of order 2 on a template started on day 100
gets completed_date 102 on both completion paths, whatever the request
date is. -/
theorem c2_witness :
    putClientSession p0 0 [t0] =
      .ok (applyUpdate t0 s0 p0, updateSessionInDb [t0] 11 (applyUpdate t0 s0 p0))
    ∧ (applyUpdate t0 s0 p0).completed = true
    ∧ (applyUpdate t0 s0 p0).completed_date = some (t0.start_date + s0.order)
    ∧ putClientSession p0 0 [t0] = putClientSession p0 999 [t0]
    ∧ submitCheckin cp0 [p0] 0 [t0] [ci0] =
        .ok (updCheckIn cp0 ci0, [applyUpdate t0 s0 p0],
             updateSessionInDb [t0] 11 (applyUpdate t0 s0 p0),
             [ci0].map (fun c => if c.id == cp0.id then updCheckIn cp0 ci0 else c))
    ∧ submitCheckin cp0 [p0] 0 [t0] [ci0] = submitCheckin cp0 [p0] 999 [t0] [ci0]
    ∧ (applyUpdate t0 s0 p0).completed_date = some 102 := by
  have H := c2_completed_date [t0] p0 11 t0 s0 0 999 cp0 [ci0] ci0
    rfl (by decide) rfl (by decide)
  exact ⟨H.1, H.2.1, H.2.2.1, H.2.2.2.1, H.2.2.2.2.1, H.2.2.2.2.2,
    H.2.2.1.trans (by decide)⟩

/-- C3: an assignment performed on date D that copies S sessions creates
exactly one CheckIn for the new ClientTemplate, with start_date D and
end_date D plus S days. -/
theorem c3_assignment_checkin (req : AssignRequest) (today : Nat)
    (users : List User) (catalog : List Exercise)
    (coachDb : List CoachTemplate) (clientDb : List ClientTemplate)
    (checkIns : List CheckIn) (newId : Nat)
    (tid cid : Nat) (sessions : List SessionInput) (ct : CoachTemplate)
    (hrole : req.role = some "COACH")
    (htid : req.template_id = some tid)
    (hcid : req.client_id = some cid)
    (hsess : req.sessions = some sessions)
    (hne : sessions.isEmpty = false)
    (hfind : coachDb.find? (fun c => c.id == tid) = some ct) :
    assignTemplate req today users catalog coachDb clientDb checkIns newId =
      .ok (buildAssigned ct.name (some ct.id)
        (sessions.filterMap (copyCoachSession catalog ct)) cid today users
        clientDb checkIns newId)
    ∧ ∀ t cis2,
        assignTemplate req today users catalog coachDb clientDb checkIns newId =
          .ok (t, cis2) →
        cis2 = checkIns ++ [newCheckIn newId today t.sessions.length]
        ∧ (newCheckIn newId today t.sessions.length).start_date = today
        ∧ (newCheckIn newId today t.sessions.length).end_date =
            today + t.sessions.length
        ∧ cis2.length = checkIns.length + 1 := by
  have hmain : assignTemplate req today users catalog coachDb clientDb checkIns newId =
      .ok (buildAssigned ct.name (some ct.id)
        (sessions.filterMap (copyCoachSession catalog ct)) cid today users
        clientDb checkIns newId) := by
    simp [assignTemplate, hrole, htid, hcid, hsess, hne, hfind]
  refine ⟨hmain, ?_⟩
  intro t cis2 h
  rw [hmain] at h
  injection h with hpair
  have ht : t = (buildAssigned ct.name (some ct.id)
      (sessions.filterMap (copyCoachSession catalog ct)) cid today users
      clientDb checkIns newId).1 := by rw [hpair]
  have hcs : cis2 = (buildAssigned ct.name (some ct.id)
      (sessions.filterMap (copyCoachSession catalog ct)) cid today users
      clientDb checkIns newId).2 := by rw [hpair]
  subst ht
  subst hcs
  refine ⟨rfl, rfl, rfl, by simp [buildAssigned]⟩

/-- Witness for C3: assigning the sample coach template on day 200
yields one CheckIn running from day 200 to day 200 plus the copied
session count. -/
theorem c3_witness :
    assignTemplate reqFull 200 demoUsers demoCatalog [demoCoachTemplate]
        [] [] 50 = .ok (demoAssigned.1, demoAssigned.2)
    ∧ demoAssigned.2 = [] ++ [newCheckIn 50 200 demoAssigned.1.sessions.length]
    ∧ (newCheckIn 50 200 demoAssigned.1.sessions.length).start_date = 200
    ∧ (newCheckIn 50 200 demoAssigned.1.sessions.length).end_date =
        200 + demoAssigned.1.sessions.length
    ∧ demoAssigned.2.length = ([] : List CheckIn).length + 1 := by
  have H := c3_assignment_checkin reqFull 200 demoUsers demoCatalog
    [demoCoachTemplate] [] [] 50 1 7 reqFullSessions demoCoachTemplate
    rfl rfl rfl rfl (by decide) (by decide)
  exact ⟨H.1.trans rfl, H.2 demoAssigned.1 demoAssigned.2 (H.1.trans rfl)⟩

/-- C5 counterexample: an assignment call whose role parameter is CLIENT
(so not COACH) succeeds and creates a ClientTemplate, and a role outside
the enum fails with a ValidationError (400), not an AuthorizationError:
the claim that every non-COACH caller gets an authorization error and no
template is refuted at this input. -/
theorem c5_counterexample :
    (assignTemplate reqSubset 0 demoUsers [] [] [srcClientTemplate] [] 50).isOk = true
    ∧ assignTemplate reqBadRole 0 demoUsers [] [] [srcClientTemplate] [] 50 =
      .error (.validation "Parameter role should be either COACH or CLIENT")
    ∧ statusCode (.validation "Parameter role should be either COACH or CLIENT") = 400 := by
  refine ⟨rfl, rfl, rfl⟩

/-- C5 amended: a role parameter outside the COACH or CLIENT enum fails
with a ValidationError (HTTP 400, not an authorization error) and no
ClientTemplate is created; role CLIENT is accepted and re-assigns an
existing client template. -/
theorem c5_role_validation (req : AssignRequest) (today : Nat)
    (users : List User) (catalog : List Exercise)
    (coachDb : List CoachTemplate) (clientDb : List ClientTemplate)
    (checkIns : List CheckIn) (newId : Nat)
    (role : String) (tid cid : Nat) (sessions : List SessionInput)
    (hrole : req.role = some role)
    (htid : req.template_id = some tid)
    (hcid : req.client_id = some cid)
    (hsess : req.sessions = some sessions)
    (hne : sessions.isEmpty = false)
    (h1 : role ≠ "COACH") (h2 : role ≠ "CLIENT") :
    assignTemplate req today users catalog coachDb clientDb checkIns newId =
      .error (.validation "Parameter role should be either COACH or CLIENT")
    ∧ statusCode (.validation "Parameter role should be either COACH or CLIENT") = 400 := by
  have hb1 : (role == "COACH") = false := beq_eq_false_iff_ne.mpr h1
  have hb2 : (role == "CLIENT") = false := beq_eq_false_iff_ne.mpr h2
  refine ⟨?_, rfl⟩
  simp [assignTemplate, hrole, htid, hcid, hsess, hne, hb1, hb2]

/-- Witness for the amended C5: the role string User gets the 400
validation error. -/
theorem c5_amended_witness :
    assignTemplate reqBadRole 0 demoUsers [] [] [srcClientTemplate] [] 50 =
      .error (.validation "Parameter role should be either COACH or CLIENT")
    ∧ statusCode (.validation "Parameter role should be either COACH or CLIENT") = 400 :=
  c5_role_validation reqBadRole 0 demoUsers [] [] [srcClientTemplate] [] 50
    "User" 3 7 reqSubsetSessions rfl rfl rfl rfl (by decide)
    (by decide) (by decide)

/-- C6 counterexample: the partial re-assignment request of
test_post_client_template covers one of the two source sessions; the
request is accepted and the created ClientTemplate holds exactly the
covered subset (one session), refuting both the rejection and the
never-created-with-subset halves of the claim. -/
theorem c6_counterexample :
    (assignTemplate reqSubset 0 demoUsers [] [] [srcClientTemplate] [] 50).toOption.map
      (fun r => r.1.sessions.length) = some 1
    ∧ srcClientTemplate.sessions.length = 2
    ∧ reqSubsetSessions.length = 1 := by
  refine ⟨rfl, rfl, rfl⟩

/-- C6 amended: a copy-path assignment request is not required to cover
every slot of the source template; the engine copies exactly the
sessions supplied in the request (with their overrides), so a partial
set yields a ClientTemplate containing only the covered sessions. -/
theorem c6_supplied_sessions_copied (req : AssignRequest) (today : Nat)
    (users : List User) (catalog : List Exercise)
    (coachDb : List CoachTemplate) (clientDb : List ClientTemplate)
    (checkIns : List CheckIn) (newId : Nat)
    (tid cid : Nat) (sessions : List SessionInput) (src : ClientTemplate)
    (hrole : req.role = some "CLIENT")
    (htid : req.template_id = some tid)
    (hcid : req.client_id = some cid)
    (hsess : req.sessions = some sessions)
    (hne : sessions.isEmpty = false)
    (hfind : clientDb.find? (fun t => t.id == tid) = some src)
    (hcov : ∀ si ∈ sessions, (copyClientSession src si).isSome) :
    assignTemplate req today users catalog coachDb clientDb checkIns newId =
      .ok (buildAssigned src.name src.coach_template_id
        (sessions.filterMap (copyClientSession src)) cid today users
        clientDb checkIns newId)
    ∧ (buildAssigned src.name src.coach_template_id
        (sessions.filterMap (copyClientSession src)) cid today users
        clientDb checkIns newId).1.sessions.length = sessions.length := by
  constructor
  · simp [assignTemplate, hrole, htid, hcid, hsess, hne, hfind]
  · show (sessions.filterMap (copyClientSession src)).length = sessions.length
    exact length_filterMap_of_isSome (copyClientSession src) sessions hcov

/-- Witness for the amended C6: the partial request copies exactly its
one supplied session. -/
theorem c6_amended_witness :
    assignTemplate reqSubset 0 demoUsers [] [] [srcClientTemplate] [] 50 =
      .ok (buildAssigned srcClientTemplate.name srcClientTemplate.coach_template_id
        (reqSubsetSessions.filterMap (copyClientSession srcClientTemplate))
        7 0 demoUsers [srcClientTemplate] [] 50)
    ∧ (buildAssigned srcClientTemplate.name srcClientTemplate.coach_template_id
        (reqSubsetSessions.filterMap (copyClientSession srcClientTemplate))
        7 0 demoUsers [srcClientTemplate] [] 50).1.sessions.length =
      reqSubsetSessions.length :=
  c6_supplied_sessions_copied reqSubset 0 demoUsers [] [] [srcClientTemplate]
    [] 50 3 7 reqSubsetSessions srcClientTemplate rfl rfl rfl rfl
    (by decide) (by decide) (by decide)

/-- C7: for a client with exactly one active template the next pending
session query returns the lowest-order not-completed session (and some
session is returned whenever one is pending); with no active template it
fails not-found, and with no client_id parameter it fails with a
validation error. -/
theorem c7_next_session (db : List ClientTemplate) (cid : Nat) :
    getNextSession none db =
      .error (.validation "No query parameter client_id found in request")
    ∧ (activeOf db cid = [] →
        getNextSession (some cid) db =
          .error (.notFound ("No active template found with client_id: " ++ natRepr cid)))
    ∧ (∀ t, activeOf db cid = [t] →
        (∀ s, getNextSession (some cid) db = .ok (some s) →
          s ∈ t.sessions ∧ s.completed = false ∧
          ∀ u ∈ t.sessions, u.completed = false → s.order ≤ u.order)
        ∧ ((∃ u ∈ t.sessions, u.completed = false) →
            ∃ s, getNextSession (some cid) db = .ok (some s))) := by
  refine ⟨rfl, ?_, ?_⟩
  · intro h
    simp [getNextSession, h]
  · intro t ht
    have hperm : List.Perm (sortByOrder (t.sessions.filter (fun x => !x.completed)))
        (t.sessions.filter (fun x => !x.completed)) :=
      List.perm_insertionSort sessionLE _
    constructor
    · intro s hs
      have hred : getNextSession (some cid) db =
          .ok (sortByOrder (t.sessions.filter (fun x => !x.completed))).head? := by
        simp [getNextSession, ht]
      rw [hred] at hs
      injection hs with hh
      rcases hsort : sortByOrder (t.sessions.filter (fun x => !x.completed))
        with _ | ⟨a, rest⟩
      · rw [hsort] at hh
        simp at hh
      · rw [hsort] at hh
        simp at hh
        subst hh
        have hmemSort : a ∈ sortByOrder (t.sessions.filter (fun x => !x.completed)) := by
          rw [hsort]
          exact List.mem_cons_self a rest
        have hmemL := hperm.mem_iff.mp hmemSort
        have hmem := List.mem_filter.mp hmemL
        refine ⟨hmem.1, by simpa using hmem.2, ?_⟩
        intro u hu huc
        have huL : u ∈ t.sessions.filter (fun x => !x.completed) :=
          List.mem_filter.mpr ⟨hu, by simp [huc]⟩
        have huSort := hperm.mem_iff.mpr huL
        rw [hsort] at huSort
        rcases List.mem_cons.mp huSort with he | hrest
        · rw [he]
        · have hsorted : List.Sorted sessionLE
              (sortByOrder (t.sessions.filter (fun x => !x.completed))) :=
            List.sorted_insertionSort sessionLE _
          rw [hsort] at hsorted
          exact List.rel_of_sorted_cons hsorted u hrest
    · intro hex
      obtain ⟨u, hu, huc⟩ := hex
      have huL : u ∈ t.sessions.filter (fun x => !x.completed) :=
        List.mem_filter.mpr ⟨hu, by simp [huc]⟩
      rcases hsort : sortByOrder (t.sessions.filter (fun x => !x.completed))
        with _ | ⟨a, rest⟩
      · rw [hsort] at hperm
        exact absurd (hperm.symm.eq_nil ▸ huL) (by simp [List.Perm.nil.eq_nil])
      · refine ⟨a, ?_⟩
        simp [getNextSession, ht, hsort]

/-- C8: for a client with one active template, the paginated history
query with 1-based page p and page size s returns exactly the window
from position (p-1)*s to p*s of the order-ascending sequence of
completed sessions (a sorted permutation of the completed sessions),
and returns them all when page and size are omitted. -/
theorem c8_training_log (db : List ClientTemplate) (cid p s : Nat)
    (t : ClientTemplate) (ht : activeOf db cid = [t]) :
    trainingLog (some cid) (some p) (some s) db =
      .ok (((sortByOrder (t.sessions.filter (fun x => x.completed))).drop
        ((p - 1) * s)).take s)
    ∧ trainingLog (some cid) none none db =
      .ok (sortByOrder (t.sessions.filter (fun x => x.completed)))
    ∧ List.Perm (sortByOrder (t.sessions.filter (fun x => x.completed)))
        (t.sessions.filter (fun x => x.completed))
    ∧ List.Sorted sessionLE (sortByOrder (t.sessions.filter (fun x => x.completed))) := by
  exact ⟨by simp [trainingLog, ht], by simp [trainingLog, ht],
    List.perm_insertionSort sessionLE _, List.sorted_insertionSort sessionLE _⟩

/-- Sample template for the pagination witness: five completed sessions
of orders 1 to 5. -/
def logTemplate : ClientTemplate :=
  mkTemplate 1 7 true
    [mkSession 1 1 true, mkSession 2 2 true, mkSession 3 3 true,
     mkSession 4 4 true, mkSession 5 5 true]

/-- Witness for C8: page 2 of size 2 over five completed sessions of
orders 1 to 5 returns exactly the sessions of orders 3 and 4, in that
order; omitted pagination returns all five. -/
theorem c8_witness :
    trainingLog (some 7) (some 2) (some 2) [logTemplate] =
      .ok [mkSession 3 3 true, mkSession 4 4 true]
    ∧ trainingLog (some 7) none none [logTemplate] =
      .ok [mkSession 1 1 true, mkSession 2 2 true, mkSession 3 3 true,
           mkSession 4 4 true, mkSession 5 5 true] := by
  have H := c8_training_log [logTemplate] 7 2 2 logTemplate rfl
  exact ⟨H.1.trans (by rfl), H.2.1.trans (by rfl)⟩

/-- Witness for C7: a store with no active template for client 99 gives
the not-found error, and for client 7 with a pending session the query
returns the lowest-order pending one. -/
theorem c7_witness :
    getNextSession (some 99) [logTemplate] =
      .error (.notFound ("No active template found with client_id: " ++ natRepr 99))
    ∧ getNextSession none [logTemplate] =
      .error (.validation "No query parameter client_id found in request")
    ∧ getNextSession (some 7) [mkTemplate 1 7 true [mkSession 1 1 true, mkSession 2 2 false]] =
      .ok (some (mkSession 2 2 false)) := by
  have H := c7_next_session [logTemplate] 99
  have Hq := c7_next_session [mkTemplate 1 7 true [mkSession 1 1 true, mkSession 2 2 false]] 7
  refine ⟨H.2.1 rfl, H.1, ?_⟩
  have hx := (Hq.2.2 (mkTemplate 1 7 true [mkSession 1 1 true, mkSession 2 2 false]) rfl).2
    ⟨mkSession 2 2 false, by decide, rfl⟩
  exact rfl

/-- C9: creating a session whose name already exists within the same
client template fails with the ConflictError (HTTP 409) and leaves the
store unchanged, so no session or exercise rows of the attempt are
persisted. -/
theorem c9_duplicate_session_name (role : String) (tid : Nat) (n : String)
    (exs : List ExercisePayload) (db : List ClientTemplate) (newId : Nat)
    (t : ClientTemplate)
    (hf : db.find? (fun u => u.id == tid) = some t)
    (hdup : t.sessions.any (fun s => s.name == n) = true) :
    postClientSession role (some tid) (some n) (some exs) db newId =
      .error (.conflict ("Duplicate session name found in template: " ++ n))
    ∧ runPostClientSession role (some tid) (some n) (some exs) db newId = db
    ∧ statusCode (.conflict ("Duplicate session name found in template: " ++ n)) = 409 := by
  have hp : postClientSession role (some tid) (some n) (some exs) db newId =
      .error (.conflict ("Duplicate session name found in template: " ++ n)) := by
    simp [postClientSession, hf, hdup]
  exact ⟨hp, by simp [runPostClientSession, hp], rfl⟩

/-- Sample template holding a session named Feet Day 1. -/
def dupTemplate : ClientTemplate :=
  mkTemplate 1 7 true [{ mkSession 11 1 false with name := "Feet Day 1" }]

/-- Witness for C9: posting a second Feet Day 1 session gives the 409
conflict and the store is unchanged. -/
theorem c9_witness :
    postClientSession "COACH" (some 1) (some "Feet Day 1") (some []) [dupTemplate] 60 =
      .error (.conflict ("Duplicate session name found in template: " ++ "Feet Day 1"))
    ∧ runPostClientSession "COACH" (some 1) (some "Feet Day 1") (some []) [dupTemplate] 60 =
      [dupTemplate]
    ∧ statusCode (.conflict ("Duplicate session name found in template: " ++ "Feet Day 1")) = 409 :=
  c9_duplicate_session_name "COACH" 1 "Feet Day 1" [] [dupTemplate] 60
    dupTemplate rfl rfl

/-- C10: a session create request routes its exercise payload by the
role of the caller: a COACH caller gets ClientExercises and no
TrainingEntries, a CLIENT caller gets TrainingEntries and no
ClientExercises; the same payload never populates both lists. -/
theorem c10_session_role_routing (role : String) (tid : Nat) (n : String)
    (exs : List ExercisePayload) (db : List ClientTemplate) (newId : Nat)
    (t : ClientTemplate)
    (hf : db.find? (fun u => u.id == tid) = some t)
    (hdup : t.sessions.any (fun s => s.name == n) = false) :
    postClientSession role (some tid) (some n) (some exs) db newId =
      .ok (createdSession role n exs t newId,
        db.map (fun u =>
          if u.id == tid
          then { u with sessions := u.sessions ++ [createdSession role n exs t newId] }
          else u))
    ∧ (role = "COACH" →
        (createdSession role n exs t newId).exercises = exs.map toClientExercise
        ∧ (createdSession role n exs t newId).training_entries = [])
    ∧ (role = "CLIENT" →
        (createdSession role n exs t newId).exercises = []
        ∧ (createdSession role n exs t newId).training_entries = exs.map toTrainingEntry)
    ∧ ((createdSession role n exs t newId).exercises = []
        ∨ (createdSession role n exs t newId).training_entries = []) := by
  refine ⟨by simp [postClientSession, hf, hdup], ?_, ?_, ?_⟩
  · intro hr
    subst hr
    exact ⟨rfl, rfl⟩
  · intro hr
    subst hr
    exact ⟨rfl, rfl⟩
  · rcases hr : (role == "COACH") with _ | _
    · left
      simp [createdSession, hr]
    · right
      simp [createdSession, hr]

/-- Witness for C10: the same one-exercise payload lands in exercises
for a COACH caller and in training_entries for a CLIENT caller, never
both. -/
theorem c10_witness :
    postClientSession "CLIENT" (some 1) (some "Feet Day 2")
        (some [{ name := "Tip Toe", category := "Arch", sets := 3, reps := 15,
                 weight := 150, order := 1 }]) [dupTemplate] 60 =
      .ok (createdSession "CLIENT" "Feet Day 2"
          [{ name := "Tip Toe", category := "Arch", sets := 3, reps := 15,
             weight := 150, order := 1 }] dupTemplate 60,
        [dupTemplate].map (fun u =>
          if u.id == 1
          then { u with sessions := u.sessions ++
            [createdSession "CLIENT" "Feet Day 2"
              [{ name := "Tip Toe", category := "Arch", sets := 3, reps := 15,
                 weight := 150, order := 1 }] dupTemplate 60] }
          else u))
    ∧ (createdSession "CLIENT" "Feet Day 2"
        [{ name := "Tip Toe", category := "Arch", sets := 3, reps := 15,
           weight := 150, order := 1 }] dupTemplate 60).exercises = []
    ∧ (createdSession "CLIENT" "Feet Day 2"
        [{ name := "Tip Toe", category := "Arch", sets := 3, reps := 15,
           weight := 150, order := 1 }] dupTemplate 60).training_entries =
      [{ name := "Tip Toe", category := "Arch", sets := 3, reps := 15,
         weight := 150, order := 1 }].map toTrainingEntry := by
  have H := c10_session_role_routing "CLIENT" 1 "Feet Day 2"
    [{ name := "Tip Toe", category := "Arch", sets := 3, reps := 15,
       weight := 150, order := 1 }] [dupTemplate] 60 dupTemplate rfl rfl
  exact ⟨H.1, (H.2.2.1 rfl).1, (H.2.2.1 rfl).2⟩

end CeBe
